import Mathlib

/-!
Verification of the interview-coach chat application (`app.py`).

The program is embedded shallowly:
* Python strings are Lean `String`s; character-level operations work on
  `String.data : List Char`.
* `str.split("---")` (no maxsplit) is embedded as `splitD` below, scanning
  left-to-right and cutting at every non-overlapping occurrence of `"---"`.
* `pat in s` (substring test) is embedded as `containsSub`.
* `str.strip()` is embedded as `pyStrip` (dropping ASCII whitespace from
  both ends, the whitespace actually produced by the model replies).
* The Streamlit session state (`st.session_state.messages`,
  `st.session_state.message_count`) is an explicit `SessionState` record;
  the widget callbacks and the turn pipeline become functions on it.
* The external model client is a parameter: its outcome for one turn is a
  `ModelResult` (success with the raw reply text, or failure).
-/

/-- A role/content message dict, as stored in `st.session_state.messages`
and as sent to the model client. -/
structure Msg where
  role : String
  content : String
deriving DecidableEq, Repr

/-- Python `pat in s` on character lists: `pat` occurs as a contiguous
substring of `s`. -/
def containsSub (pat : List Char) : List Char → Bool
  | [] => pat.isEmpty
  | c :: rest => pat.isPrefixOf (c :: rest) || containsSub pat rest

/-- Python `s.split("---")` (no maxsplit): scan left to right, cut at each
non-overlapping occurrence of `---`. Always returns a non-empty list. -/
def splitD : List Char → List (List Char)
  | '-' :: '-' :: '-' :: rest => [] :: splitD rest
  | c :: rest =>
    match splitD rest with
    | [] => [[c]]
    | p :: ps => (c :: p) :: ps
  | [] => [[]]

/-- Locate the first occurrence of the `---` delimiter: returns the text
before it and, when found, the remainder after it. Specification-side
characterisation used to state properties of `splitD`. -/
def breakD : List Char → List Char × Option (List Char)
  | '-' :: '-' :: '-' :: rest => ([], some rest)
  | c :: rest =>
    match breakD rest with
    | (b, o) => (c :: b, o)
  | [] => ([], none)

/-- The whitespace characters stripped by Python `str.strip()` that occur
in ASCII text. -/
def isPySpace (c : Char) : Bool :=
  c = ' ' || c = '\t' || c = '\n' || c = '\x0b' || c = '\x0c' || c = '\r'

/-- Python `s.strip()`: drop whitespace from both ends. -/
def pyStrip (s : List Char) : List Char :=
  ((s.dropWhile isPySpace).reverse.dropWhile isPySpace).reverse

/-- `parse_response_with_score` (app.py lines 276-282):
if the reply contains `Score:` or `Rating:`, split on `---`; when the split
produced more than one part, return `(parts[0].strip(), parts[1].strip())`;
otherwise return the reply unchanged with an empty score segment. -/
def parse_response_with_score (response : String) : String × String :=
  if containsSub "Score:".data response.data
      || containsSub "Rating:".data response.data then
    match splitD response.data with
    | p0 :: p1 :: _ => (String.mk (pyStrip p0), String.mk (pyStrip p1))
    | _ => (response, "")
  else
    (response, "")

example : parse_response_with_score "Try again with more detail." =
    ("Try again with more detail.", "") := by rfl

example : parse_response_with_score "Good answer overall.\n---\nScore: 7/10, Rating: Strong" =
    ("Good answer overall.", "Score: 7/10, Rating: Strong") := by rfl

example : parse_response_with_score "Score: 7---Good---Tail" = ("Score: 7", "Good") := by rfl

/-- The `General` entry of `INTERVIEW_PROMPTS` (app.py). -/
def generalPromptText : String :=
  "You are a senior technical interviewer with 15+ years of experience at leading technology companies including Google, Meta, Microsoft, and Amazon.\n\nYour responsibilities:\n1. Ask relevant, thoughtful technical interview questions\n2. Evaluate candidate responses with fairness and constructiveness\n3. Provide specific, actionable feedback for improvement\n4. Probe deeper with follow-up questions to assess problem-solving approach\n5. Recommend resources for skill development\n\nEvaluation Criteria:\n- Technical accuracy and depth of understanding\n- Communication clarity and articulation\n- Problem-solving methodology and reasoning\n- Consideration of edge cases and scalability\n- Time and space complexity awareness\n\nGuidelines:\n- Maintain objectivity and provide balanced assessment\n- Focus on the reasoning process, not just final answers\n- Explain the rationale behind your feedback with specific examples\n- Request clarification when responses lack specificity\n- Provide scores on a 1-10 scale with clear reasoning\n\nTone: Professional, supportive, and focused on candidate development."

/-- The `Frontend` entry of `INTERVIEW_PROMPTS` (app.py). -/
def frontendPromptText : String :=
  "You are a senior frontend engineer interviewer specializing in React, JavaScript, and modern web technologies.\n\nYour responsibilities:\n1. Ask targeted questions about React fundamentals, component architecture, and state management\n2. Assess knowledge of JavaScript ES6+, async programming, and browser APIs\n3. Evaluate understanding of performance optimization, accessibility, and responsive design\n4. Provide specific feedback on code quality and best practices\n\nEvaluation Areas:\n- JavaScript fundamentals and ES6+ features\n- React component lifecycle, hooks, and state management\n- CSS and responsive design principles\n- Performance optimization and browser rendering\n- Testing strategies and debugging skills\n\nProvide detailed, constructive feedback with code examples when relevant."

/-- The `Backend` entry of `INTERVIEW_PROMPTS` (app.py). -/
def backendPromptText : String :=
  "You are a senior backend engineer interviewer with expertise in server-side architecture, databases, and API design.\n\nYour responsibilities:\n1. Ask questions about system design, database optimization, and API development\n2. Assess knowledge of scaling, caching, security, and deployment\n3. Evaluate understanding of different architectural patterns and their trade-offs\n4. Provide feedback on code quality, error handling, and monitoring\n\nEvaluation Areas:\n- RESTful API design and best practices\n- Database schema design and query optimization\n- Authentication, authorization, and security\n- Caching strategies and performance optimization\n- Deployment, monitoring, and observability\n\nProvide structured feedback with explanations of industry best practices."

/-- The `System Design` entry of `INTERVIEW_PROMPTS` (app.py). -/
def systemDesignPromptText : String :=
  "You are a principal engineer specializing in system design and architectural decisions.\n\nYour responsibilities:\n1. Evaluate candidates\x27 ability to design scalable, reliable systems\n2. Assess trade-offs between different architectural approaches\n3. Evaluate capacity planning and bottleneck identification\n4. Provide feedback on communication and problem-solving methodology\n\nEvaluation Areas:\n- Requirements gathering and clarification\n- High-level architecture design\n- Database and storage technology selection\n- Scalability considerations and load balancing\n- Reliability, fault tolerance, and disaster recovery\n- Cost optimization and trade-offs\n\nProvide detailed analysis of design decisions with industry context."

/-- The `Data Structures` entry of `INTERVIEW_PROMPTS` (app.py). -/
def dataStructuresPromptText : String :=
  "You are a senior engineer specializing in algorithms and data structures.\n\nYour responsibilities:\n1. Evaluate problem-solving approach and algorithmic thinking\n2. Assess knowledge of fundamental and advanced data structures\n3. Evaluate code quality, complexity analysis, and optimization\n4. Provide feedback on edge case handling and testing\n\nEvaluation Areas:\n- Problem comprehension and clarification\n- Algorithm selection and optimization\n- Time and space complexity analysis\n- Code correctness and edge case handling\n- Implementation quality and best practices\n\nProvide constructive feedback with complexity analysis and optimization suggestions."

/-- The `Behavioral` entry of `INTERVIEW_PROMPTS` (app.py). -/
def behavioralPromptText : String :=
  "You are an experienced senior engineering manager and interviewer specializing in leadership and team dynamics.\n\nYour responsibilities:\n1. Evaluate communication skills and conflict resolution\n2. Assess leadership potential and team collaboration\n3. Evaluate problem-solving and decision-making under pressure\n4. Provide feedback on professional development areas\n\nEvaluation Areas:\n- Communication clarity and listening skills\n- Teamwork and collaboration\n- Leadership and mentorship\n- Problem-solving under pressure\n- Conflict resolution and negotiation\n- Adaptability and growth mindset\n\nProvide balanced, supportive feedback focused on professional growth."

/-- `INTERVIEW_PROMPTS` (app.py lines 121-233): the dict of the six
interview-category system prompts, as an association list in insertion
order. -/
def INTERVIEW_PROMPTS : List (String × String) :=
  [("General", generalPromptText),
   ("Frontend", frontendPromptText),
   ("Backend", backendPromptText),
   ("System Design", systemDesignPromptText),
   ("Data Structures", dataStructuresPromptText),
   ("Behavioral", behavioralPromptText)]

/-- Python `dict.get(k, default)` on an association list: exact key match,
first (here: unique) binding wins, `default` when the key is absent. -/
def dictGet (d : List (String × String)) (k : String) (default : String) : String :=
  match d.find? (fun p => p.1 == k) with
  | some p => p.2
  | none => default

/-- The keys of `INTERVIEW_PROMPTS`. -/
def promptKeys : List String := INTERVIEW_PROMPTS.map Prod.fst

/-- `get_system_prompt` (app.py lines 271-273):
`INTERVIEW_PROMPTS.get(interview_type, INTERVIEW_PROMPTS["General"])`. -/
def get_system_prompt (interview_type : String) : String :=
  dictGet INTERVIEW_PROMPTS interview_type generalPromptText

example : get_system_prompt "Backend" = backendPromptText := by rfl
example : get_system_prompt "frontend" = generalPromptText := by rfl

/-- `format_conversation_history` (app.py lines 260-268): rebuild each
message dict from its `role` and `content` fields. -/
def format_conversation_history (messages : List Msg) : List Msg :=
  messages.map (fun m => ⟨m.role, m.content⟩)

/-- The Streamlit session state relevant to the pipeline:
`st.session_state.messages` and `st.session_state.message_count`. -/
structure SessionState where
  messages : List Msg
  message_count : Nat
deriving DecidableEq, Repr

/-- The initial session state (app.py lines 298-305): empty history,
zero counter. -/
def initialSession : SessionState := ⟨[], 0⟩

/-- The user-append step of the pipeline (app.py lines 443-447):
append `{role: user, content: user_input}` to the history and increment
`message_count`. -/
def appendUser (s : SessionState) (t : String) : SessionState :=
  ⟨s.messages ++ [⟨"user", t⟩], s.message_count + 1⟩

/-- The assistant-append step (app.py lines 489-492): append
`{role: assistant, content: output}`; `message_count` is untouched. -/
def appendAssistant (s : SessionState) (t : String) : SessionState :=
  ⟨s.messages ++ [⟨"assistant", t⟩], s.message_count⟩

/-- The `Clear History` button handler (app.py lines 351-354):
`st.session_state.messages = []` and `st.session_state.message_count = 0`. -/
def clearHistoryAction (_ : SessionState) : SessionState := ⟨[], 0⟩

/-- The `New Session` button handler (app.py lines 357-360): identical to
`Clear History`. -/
def newSessionAction (_ : SessionState) : SessionState := ⟨[], 0⟩

/-- The request assembly (app.py lines 461-467), executed after the user
append: `messages = [{system, get_system_prompt(...)}]` extended with
`format_conversation_history(st.session_state.messages[:-1])`. The
argument `messages` is `st.session_state.messages` at that point. -/
def assembleRequest (interview_type : String) (messages : List Msg) : List Msg :=
  ⟨"system", get_system_prompt interview_type⟩ ::
    format_conversation_history messages.dropLast

/-- Outcome of the single blocking `llm.invoke(messages)` call: the raw
reply text, or an exception. -/
inductive ModelResult where
  | success (reply : String)
  | failure (err : String)

/-- One run of the chat-input block (app.py lines 438-507) given the model
outcome: the user turn is appended before the try block; on success the
raw `output` is appended as the assistant turn; in the except branch
nothing further is appended. -/
def runTurn (s : SessionState) (t : String) (r : ModelResult) : SessionState :=
  let s1 := appendUser s t
  match r with
  | .success reply => appendAssistant s1 reply
  | .failure _ => s1

/-- The fixed user-facing error message of the except branch
(app.py lines 496-499). -/
def error_message : String :=
  "An error occurred while processing your request. Please verify your API key is valid and try again."

/-- The text rendered in the assistant chat bubble: on success the split
`main_content` (app.py line 479), on failure the fixed `error_message`
(app.py line 500). -/
def turnDisplay (r : ModelResult) : String :=
  match r with
  | .success reply => (parse_response_with_score reply).1
  | .failure _ => error_message

/-- `initialize_llm` (app.py lines 238-257): `None` when `GROQ_API_KEY` is
absent or empty (Python falsiness of `not api_key`), `None` when the
`ChatGroq` constructor (the external collaborator, passed as `construct`)
raises, otherwise the client. -/
def initLLM {Client E : Type} (api_key : Option String)
    (construct : String → Except E Client) : Option Client :=
  match api_key with
  | none => none
  | some k =>
    if k = "" then none
    else
      match construct k with
      | .ok llm => some llm
      | .error _ => none

/-- How one execution of the page script ends. -/
inductive PageOutcome where
  | configError
  | chatReady
deriving DecidableEq, Repr

/-- The page flow around the chat interface (app.py lines 420-470):
`llm = initialize_llm()`; if it is `None`, an error is surfaced and
`st.stop()` halts the script before the chat input. Otherwise the chat
input runs, and `llm.invoke` is reached exactly when an input was
submitted. Returns the outcome and whether a model call occurs. -/
def pageRun {Client E : Type} (api_key : Option String)
    (construct : String → Except E Client) (userInput : Option String) :
    PageOutcome × Bool :=
  match initLLM api_key construct with
  | none => (.configError, false)
  | some _ => (.chatReady, userInput.isSome)

/-- Character-wise lowercasing of a string, used to state that two category
names differ only in letter case. -/
def lowerStr (s : String) : List Char := s.data.map Char.toLower

/-- One history mutation performed by the pipeline between resets: a user
append (app.py lines 443-447) or an assistant append (lines 489-492). -/
inductive SessionOp where
  | user (t : String)
  | assistant (t : String)

/-- Run a sequence of appends against a session state, in order. -/
def applyOps (s : SessionState) : List SessionOp → SessionState
  | [] => s
  | SessionOp.user t :: rest => applyOps (appendUser s t) rest
  | SessionOp.assistant t :: rest => applyOps (appendAssistant s t) rest

/-- Number of user appends in an op sequence. -/
def countUserOps : List SessionOp → Nat
  | [] => 0
  | SessionOp.user _ :: rest => countUserOps rest + 1
  | SessionOp.assistant _ :: rest => countUserOps rest

/-- Number of assistant appends in an op sequence. -/
def countAssistantOps : List SessionOp → Nat
  | [] => 0
  | SessionOp.user _ :: rest => countAssistantOps rest
  | SessionOp.assistant _ :: rest => countAssistantOps rest + 1

/-! ## Lemmas about the splitter -/

/-- `splitD` in terms of the first delimiter occurrence: the head of the
split is the text before the first `---`, and when a delimiter was found
the tail is the split of the remainder. -/
theorem splitD_eq_breakD (x : List Char) :
    splitD x = (breakD x).1 ::
      (match (breakD x).2 with
       | none => ([] : List (List Char))
       | some r => splitD r) := by
  induction x using splitD.induct with
  | case1 rest => simp [splitD, breakD]
  | case2 c rest h heq ih =>
    rw [heq] at ih
    exact absurd ih (by simp)
  | case3 c rest h p ps heq ih =>
    simp only [splitD, breakD]
    rw [ih]
  | case4 => simp [splitD, breakD]

/-- When the delimiter does not occur in `x`, `breakD` finds nothing. -/
theorem breakD_eq_of_no_delim (x : List Char)
    (h : containsSub ['-', '-', '-'] x = false) : breakD x = (x, none) := by
  induction x using breakD.induct with
  | case1 rest =>
    exfalso
    simp [containsSub, List.isPrefixOf] at h
  | case2 c rest hno b o heq ih =>
    simp only [containsSub, Bool.or_eq_false_iff] at h
    simp [breakD, ih h.2]
  | case3 => simp [breakD]

/-- When the delimiter does not occur in `x`, the split is the singleton
`[x]` (Python: `len(parts) == 1`). -/
theorem splitD_eq_of_no_delim (x : List Char)
    (h : containsSub ['-', '-', '-'] x = false) : splitD x = [x] := by
  rw [splitD_eq_breakD, breakD_eq_of_no_delim x h]

/-! ## Claim theorems: response splitter (C2, C3) -/

/-- C3: for every reply that contains neither `Score:` nor `Rating:`, and
for every reply without a `---` delimiter (in particular one that has a
trigger but no delimiter), `parse_response_with_score` returns the input
unchanged as mainContent with an empty scoreContent; the function is total,
so the splitter never fails. -/
theorem parse_identity_without_trigger_or_delim (x : String)
    (h : (containsSub "Score:".data x.data = false ∧
          containsSub "Rating:".data x.data = false)
       ∨ containsSub "---".data x.data = false) :
    parse_response_with_score x = (x, "") := by
  unfold parse_response_with_score
  rcases h with ⟨h1, h2⟩ | hd
  · rw [h1, h2]
    simp
  · have hd' : containsSub ['-', '-', '-'] x.data = false := hd
    rw [splitD_eq_of_no_delim x.data hd']
    split
    · rfl
    · rfl

/-- Closed witness for the C3 theorem at Scenario C of the specification. -/
theorem parse_identity_without_trigger_or_delim_witness :
    containsSub "Score:".data "Try again with more detail.".data = false ∧
    containsSub "Rating:".data "Try again with more detail.".data = false ∧
    parse_response_with_score "Try again with more detail." =
      ("Try again with more detail.", "") :=
  ⟨by decide, by decide,
    parse_identity_without_trigger_or_delim "Try again with more detail."
      (Or.inl ⟨by decide, by decide⟩)⟩

/-- C2 counterexample: on `"Score: 7---Good---Tail"` both a trigger and the
delimiter are present, yet the result is not (before-first-delimiter,
everything-after-first-delimiter): Python `split("---")` is called without
maxsplit and `parts[1]` ends at the second delimiter, so `"Tail"` is
dropped rather than kept inside scoreContent. -/
theorem parse_drops_text_after_second_delim :
    containsSub "Score:".data "Score: 7---Good---Tail".data = true ∧
    containsSub "---".data "Score: 7---Good---Tail".data = true ∧
    parse_response_with_score "Score: 7---Good---Tail" ≠
      ("Score: 7", "Good---Tail") := by
  refine ⟨by decide, by decide, by decide⟩

/-- C2 (amended): for every reply containing `Score:` or `Rating:` in which
the delimiter occurs — `breakD` splits the text at the first `---` into
`b` and remainder `r` — mainContent is `b` trimmed, and scoreContent is
the part of `r` before any further `---` (trimmed); text after a second
delimiter is discarded, not kept inside scoreContent. -/
theorem parse_splits_at_first_delim (x : String) (b r : List Char)
    (htrig : (containsSub "Score:".data x.data
              || containsSub "Rating:".data x.data) = true)
    (hbreak : breakD x.data = (b, some r)) :
    parse_response_with_score x =
      (String.mk (pyStrip b), String.mk (pyStrip (breakD r).1)) := by
  unfold parse_response_with_score
  rw [if_pos htrig]
  have h1 : splitD x.data = b :: splitD r := by
    rw [splitD_eq_breakD x.data, hbreak]
  have h2 := splitD_eq_breakD r
  rw [h1, h2]

/-- Closed witness for the amended C2 theorem. -/
theorem parse_splits_at_first_delim_witness :
    (containsSub "Score:".data "Score: 7 ---  Good".data
      || containsSub "Rating:".data "Score: 7 ---  Good".data) = true ∧
    breakD "Score: 7 ---  Good".data = ("Score: 7 ".data, some "  Good".data) ∧
    parse_response_with_score "Score: 7 ---  Good" = ("Score: 7", "Good") :=
  ⟨by decide, by decide,
    parse_splits_at_first_delim "Score: 7 ---  Good"
      "Score: 7 ".data "  Good".data (by decide) (by decide)⟩

/-! ## Claim theorems: prompt catalog (C4, C10) -/

/-- For any string that is not one of the six catalog keys, the dict
lookup finds nothing and the `General` default is returned. -/
theorem get_system_prompt_of_not_mem (c : String) (h : c ∉ promptKeys) :
    get_system_prompt c = generalPromptText := by
  simp only [promptKeys, INTERVIEW_PROMPTS, List.map_cons, List.map_nil,
    List.mem_cons, List.not_mem_nil, or_false] at h
  push_neg at h
  obtain ⟨h1, h2, h3, h4, h5, h6⟩ := h
  unfold get_system_prompt dictGet
  have hfind : INTERVIEW_PROMPTS.find? (fun p => p.1 == c) = none := by
    rw [List.find?_eq_none]
    intro p hp
    simp only [INTERVIEW_PROMPTS, List.mem_cons, List.not_mem_nil, or_false] at hp
    rcases hp with rfl | rfl | rfl | rfl | rfl | rfl <;>
      simp only [beq_iff_eq] <;>
      first
        | exact fun hh => h1 hh.symm
        | exact fun hh => h2 hh.symm
        | exact fun hh => h3 hh.symm
        | exact fun hh => h4 hh.symm
        | exact fun hh => h5 hh.symm
        | exact fun hh => h6 hh.symm
  rw [hfind]

/-- C4: the prompt-catalog lookup is total: for every input string,
including the empty string and unrecognized tags, it returns a non-empty
prompt string, and for any input that is not one of the six known category
names it returns exactly the General prompt text. -/
theorem get_system_prompt_total (c : String) :
    get_system_prompt c ≠ "" ∧
    (c ∉ promptKeys → get_system_prompt c = generalPromptText) := by
  constructor
  · by_cases h : c ∈ promptKeys
    · simp only [promptKeys, INTERVIEW_PROMPTS, List.map_cons, List.map_nil,
        List.mem_cons, List.not_mem_nil, or_false] at h
      rcases h with rfl | rfl | rfl | rfl | rfl | rfl <;> decide
    · rw [get_system_prompt_of_not_mem c h]
      decide
  · exact get_system_prompt_of_not_mem c

/-- Closed witness for the C4 theorem at the empty string. -/
theorem get_system_prompt_total_witness :
    ("" : String) ∉ promptKeys ∧
    get_system_prompt "" ≠ "" ∧
    get_system_prompt "" = generalPromptText :=
  ⟨by decide, (get_system_prompt_total "").1,
    (get_system_prompt_total "").2 (by decide)⟩

/-- C10: the catalog lookup is an exact, case-sensitive match: any input
that agrees with a known category name up to letter case but is not
identical to it falls through to the General prompt; in particular
`"frontend"` and `"BACKEND"` yield the General prompt and not the
Frontend/Backend prompts. -/
theorem get_system_prompt_case_sensitive :
    (∀ c k, k ∈ promptKeys → lowerStr c = lowerStr k → c ≠ k →
      get_system_prompt c = generalPromptText) ∧
    get_system_prompt "frontend" = generalPromptText ∧
    generalPromptText ≠ frontendPromptText ∧
    get_system_prompt "BACKEND" = generalPromptText ∧
    generalPromptText ≠ backendPromptText := by
  refine ⟨?_, rfl, by decide, rfl, by decide⟩
  intro c k hk hl hne
  by_cases hc : c ∈ promptKeys
  · exfalso
    simp only [promptKeys, INTERVIEW_PROMPTS, List.map_cons, List.map_nil,
      List.mem_cons, List.not_mem_nil, or_false] at hk hc
    rcases hk with rfl | rfl | rfl | rfl | rfl | rfl <;>
      rcases hc with rfl | rfl | rfl | rfl | rfl | rfl <;>
      first
        | exact hne rfl
        | (revert hl; decide)
  · exact get_system_prompt_of_not_mem c hc

/-- Closed witness for the C10 theorem at `"frontend"`. -/
theorem get_system_prompt_case_sensitive_witness :
    ("Frontend" : String) ∈ promptKeys ∧
    lowerStr "frontend" = lowerStr "Frontend" ∧
    ("frontend" : String) ≠ "Frontend" ∧
    get_system_prompt "frontend" = generalPromptText :=
  ⟨by decide, by decide, by decide,
    get_system_prompt_case_sensitive.1 "frontend" "Frontend"
      (by decide) (by decide) (by decide)⟩

/-! ## Claim theorems: session state (C5, C6) -/

/-- Effect of a sequence of appends on the counters, from any start
state: each user append adds one message and one to the counter, each
assistant append adds one message only. -/
theorem applyOps_counters (ops : List SessionOp) (s : SessionState) :
    (applyOps s ops).message_count = s.message_count + countUserOps ops ∧
    (applyOps s ops).messages.length = s.messages.length + ops.length := by
  induction ops generalizing s with
  | nil => exact ⟨rfl, rfl⟩
  | cons o rest ih =>
    cases o with
    | user t =>
      obtain ⟨h1, h2⟩ := ih (appendUser s t)
      refine ⟨?_, ?_⟩
      · have e1 : (applyOps s (SessionOp.user t :: rest)).message_count
            = (applyOps (appendUser s t) rest).message_count := rfl
        have e2 : (appendUser s t).message_count = s.message_count + 1 := rfl
        have e3 : countUserOps (SessionOp.user t :: rest) = countUserOps rest + 1 := rfl
        rw [e1, h1, e2, e3]
        omega
      · have e1 : (applyOps s (SessionOp.user t :: rest)).messages.length
            = (applyOps (appendUser s t) rest).messages.length := rfl
        have e2 : (appendUser s t).messages.length = s.messages.length + 1 := by
          simp [appendUser]
        have e3 : (SessionOp.user t :: rest).length = rest.length + 1 := rfl
        rw [e1, h2, e2, e3]
        omega
    | assistant t =>
      obtain ⟨h1, h2⟩ := ih (appendAssistant s t)
      refine ⟨?_, ?_⟩
      · have e1 : (applyOps s (SessionOp.assistant t :: rest)).message_count
            = (applyOps (appendAssistant s t) rest).message_count := rfl
        have e2 : (appendAssistant s t).message_count = s.message_count := rfl
        have e3 : countUserOps (SessionOp.assistant t :: rest) = countUserOps rest := rfl
        rw [e1, h1, e2, e3]
      · have e1 : (applyOps s (SessionOp.assistant t :: rest)).messages.length
            = (applyOps (appendAssistant s t) rest).messages.length := rfl
        have e2 : (appendAssistant s t).messages.length = s.messages.length + 1 := by
          simp [appendAssistant]
        have e3 : (SessionOp.assistant t :: rest).length = rest.length + 1 := rfl
        rw [e1, h2, e2, e3]
        omega

/-- An op sequence consists of its user appends and assistant appends. -/
theorem countOps_total (ops : List SessionOp) :
    countUserOps ops + countAssistantOps ops = ops.length := by
  induction ops with
  | nil => rfl
  | cons o rest ih =>
    cases o <;> simp [countUserOps, countAssistantOps] <;> omega

/-- C5: starting from the empty session, after any interleaving of
`k` user appends and `m` assistant appends, `message_count = k` and the
history length is `k + m`; an assistant append never changes the
counter. -/
theorem session_counter_invariant (ops : List SessionOp) :
    (applyOps initialSession ops).message_count = countUserOps ops ∧
    (applyOps initialSession ops).messages.length =
      countUserOps ops + countAssistantOps ops ∧
    ∀ s t, (appendAssistant s t).message_count = s.message_count := by
  have h := applyOps_counters ops initialSession
  have ht := countOps_total ops
  refine ⟨?_, ?_, fun s t => rfl⟩
  · have : initialSession.message_count = 0 := rfl
    omega
  · have : initialSession.messages.length = 0 := rfl
    omega

/-- C6: both session-control actions leave an empty history and a zero
counter, in one step, from every prior state. -/
theorem reset_clears_session (s : SessionState) :
    (clearHistoryAction s).messages.length = 0 ∧
    (clearHistoryAction s).message_count = 0 ∧
    (newSessionAction s).messages.length = 0 ∧
    (newSessionAction s).message_count = 0 :=
  ⟨rfl, rfl, rfl, rfl⟩

/-! ## Claim theorems: turn pipeline (C1, C7, C8) -/

/-- Rebuilding each message dict from its fields is the identity. -/
theorem format_conversation_history_id (L : List Msg) :
    format_conversation_history L = L :=
  List.map_id L

/-- C1 (failed by the code): the request assembled after the user append
is `[system] ++ H` — `st.session_state.messages[:-1]` removes exactly the
just-appended user turn, so the pending user text is absent from the
request: on empty prior history the request is the system entry alone,
of length 1, not the claimed `|H| + 2 = 2`. -/
theorem request_omits_pending_user_turn :
    (∀ (H : List Msg) (k : Nat) (t it : String),
      assembleRequest it ((appendUser ⟨H, k⟩ t).messages) =
        Msg.mk "system" (get_system_prompt it) :: H) ∧
    assembleRequest "General"
        ((appendUser initialSession "Explain database indexing.").messages) =
      [⟨"system", generalPromptText⟩] ∧
    (assembleRequest "General"
        ((appendUser initialSession "Explain database indexing.").messages)).length ≠ 2 := by
  refine ⟨?_, rfl, by decide⟩
  intro H k t it
  simp only [assembleRequest, appendUser, List.dropLast_concat,
    format_conversation_history_id]

/-- C7: when the model invocation fails, the just-appended user turn is
still the last history entry (the append is not rolled back), no
assistant turn is appended for the exchange, and the turn renders the
fixed user-facing error message instead of crashing. -/
theorem failed_turn_keeps_user_turn (s : SessionState) (t err : String) :
    (runTurn s t (.failure err)).messages = s.messages ++ [⟨"user", t⟩] ∧
    (runTurn s t (.failure err)).messages.getLast? = some ⟨"user", t⟩ ∧
    turnDisplay (.failure err) = error_message := by
  refine ⟨rfl, ?_, rfl⟩
  simp [runTurn, appendUser]

/-- C8: on a successful turn the assistant entry appended to history holds
the raw reply itself, not the split mainContent: the history gains exactly
the user turn and then `⟨assistant, reply⟩`, while only the display uses
the splitter; on a reply with a score segment the displayed mainContent
differs from the stored raw text. -/
theorem assistant_turn_stores_raw_reply (s : SessionState) (t reply : String) :
    (runTurn s t (.success reply)).messages =
      s.messages ++ [⟨"user", t⟩, ⟨"assistant", reply⟩] ∧
    (runTurn s t (.success reply)).messages.getLast? = some ⟨"assistant", reply⟩ ∧
    turnDisplay (.success reply) = (parse_response_with_score reply).1 ∧
    (parse_response_with_score "Nice answer. ---Score: 8").1 ≠
      "Nice answer. ---Score: 8" := by
  refine ⟨?_, ?_, rfl, by decide⟩
  · simp [runTurn, appendUser, appendAssistant]
  · simp [runTurn, appendUser, appendAssistant]

/-! ## Claim theorems: startup configuration (C9) -/

/-- C9: when no API key is present, when the key is the empty string, or
when client construction fails, initialization yields no client, the page
run ends in the configuration error (the script stops before the chat
input), and no model call can occur on that run. -/
theorem pipeline_unreachable_without_key (Client E : Type)
    (construct : String → Except E Client) (input : Option String) :
    (initLLM none construct = none ∧
      pageRun none construct input = (.configError, false)) ∧
    (@initLLM Client E (some "") construct = none ∧
      pageRun (some "") construct input = (.configError, false)) ∧
    (∀ k e, construct k = .error e →
      initLLM (some k) construct = none ∧
      pageRun (some k) construct input = (.configError, false)) := by
  refine ⟨⟨rfl, rfl⟩, ⟨by simp [initLLM], by simp [pageRun, initLLM]⟩, ?_⟩
  intro k e h
  have hinit : initLLM (some k) construct = none := by
    by_cases hk : k = ""
    · simp [initLLM, hk]
    · simp [initLLM, hk, h]
  refine ⟨hinit, ?_⟩
  simp [pageRun, hinit]

/-- Closed witness for the C9 theorem: a constructor that always raises,
with a submitted chat input pending. -/
theorem pipeline_unreachable_without_key_witness :
    ((fun _ : String => (Except.error "boom" : Except String Unit)) "key"
      = Except.error "boom") ∧
    pageRun (some "key")
      (fun _ : String => (Except.error "boom" : Except String Unit))
      (some "hello") = (.configError, false) ∧
    pageRun none
      (fun _ : String => (Except.error "boom" : Except String Unit))
      (some "hello") = (.configError, false) :=
  ⟨rfl,
    ((pipeline_unreachable_without_key Unit String
      (fun _ => Except.error "boom") (some "hello")).2.2 "key" "boom" rfl).2,
    (pipeline_unreachable_without_key Unit String
      (fun _ => Except.error "boom") (some "hello")).1.2⟩
